import Mathlib

/-!
Verification of the FVE shallow-ice numerical core (files src/c/ch11/ice.c and
src/c/ch12/dnl.c) against its specification.

Shallow embedding notes.

Real numbers: the C code computes with IEEE doubles; we model exact arithmetic
over the rationals.  The code calls PetscPowReal(x, p) only with the two
exponents (n-1)/2 (on the positive quantity slopesqr) and n+2 (on absolute
values); we model a run in which these two exponents are natural numbers,
carried as separate fields eSlope and eThick of the context (the default Glen
exponent n = 3 gives eSlope = 1 and eThick = 5), so that PetscPowReal is
ordinary natural-number power.  Where a value of PetscPowReal at a possibly
non-integer exponent is merely stored and never inspected (the Gamma field of
the ice configuration), we pass an uninterpreted function powReal modelling it.

Grids and fields: a DMDA-managed 2D array with one ghost layer is modelled as a
total function from integer indices to rationals, applied in the same row-major
order f k j as the C expression f[k][j].  We model the serial run (one process
owns the whole grid: xs = 0, xm = mx, ys = 0, ym = my), which is the semantics
of the numerical core itself; periodicity of the ghost halo is a property of
the supplied field functions.

Uninitialized buffers: in ice.c, FormIFunctionLocal declares the pointers
am, ab, aqquad and never allocates or fills them (the bed array ab is never
obtained from any provider; FormBedLocal is declared but never called).  We
model the routine as a function of the contents of the ab buffer, passed as an
explicit argument; am is modelled as computed by the CMB loop (which does fill
it at every owned node whenever user->cmb is non-null, as main guarantees), and
aqquad as computed by the element loop (which fills every entry the node loop
reads, since the element loop starts at xs-1, ys-1).

Pointers as outputs: SIAflux in dnl.c writes through its output pointers D and
q; we model each pointer argument by a Boolean flag saying whether it is
non-null, and the routine returns Except, with an error exactly when it would
store through a null pointer.
-/

namespace Ice

/-- Value of a gradient at a point (struct Grad in ice.c). -/
structure Grad where
  x : ℚ
  y : ℚ
deriving DecidableEq

/-- Grid-independent data of ice.c (struct AppCtx), restricted to the fields
read by the residual routine, together with the CMB model parameters (struct
CMBModel: ela, zgrad) since main always attaches a CMB model.  The real powers
with exponents (n-1)/2 and n+2 are modelled by the natural exponents eSlope
and eThick (n = 3 gives 1 and 5). -/
structure AppCtx where
  L : ℚ
  n : ℚ
  eSlope : ℕ
  eThick : ℕ
  Gamma : ℚ
  D0 : ℚ
  eps : ℚ
  delta : ℚ
  lambda : ℚ
  ela : ℚ
  zgrad : ℚ

/-- Slope-dependent coefficient (getdelta in ice.c): for n > 1 this is
Gamma * slopesqr^((n-1)/2) with slopesqr = (gH.x+gb.x)^2 + (gH.y+gb.y)^2 +
delta^2, and Gamma otherwise. -/
def getdelta (u : AppCtx) (gH gb : Grad) : ℚ :=
  if 1 < u.n then
    u.Gamma * ((gH.x + gb.x) ^ 2 + (gH.y + gb.y) ^ 2 + u.delta ^ 2) ^ u.eSlope
  else
    u.Gamma

/-- Pseudo-velocity W = - delta * gb (getW in ice.c). -/
def getW (delta : ℚ) (gb : Grad) : Grad :=
  ⟨- delta * gb.x, - delta * gb.y⟩

/-- Diffusivity from the continuation scheme (DCS in ice.c):
D(eps) = (1-eps) * delta * |H|^(n+2) + eps * D0.  The argument eThick stands
for the exponent n+2. -/
def DCS (delta H : ℚ) (eThick : ℕ) (eps D0 : ℚ) : ℚ :=
  (1 - eps) * delta * |H| ^ eThick + eps * D0

/-- Flux component (getflux in ice.c): - D * gH.dir + W.dir * |Hup|^(n+2),
with dir = x when xdir and dir = y otherwise. -/
def getflux (u : AppCtx) (gH gb : Grad) (H Hup : ℚ) (xdir : Bool) : ℚ :=
  let delta := getdelta u gH gb
  let myD := DCS delta H u.eThick u.eps u.D0
  let myW := getW delta gb
  if xdir then - myD * gH.x + myW.x * |Hup| ^ u.eThick
  else - myD * gH.y + myW.y * |Hup| ^ u.eThick

/-- Bilinear Q1 interpolation of the field f at local coordinates (xi, eta) of
the cell with lower-left node (u, v) (fieldatpt in ice.c); f is applied as
f[v][u] in C, i.e. f v u here. -/
def fieldatpt (u v : ℤ) (xi eta : ℚ) (f : ℤ → ℤ → ℚ) : ℚ :=
  (1 - xi) * (1 - eta) * f v u + xi * (1 - eta) * f v (u + 1)
    + xi * eta * f (v + 1) (u + 1) + (1 - xi) * eta * f (v + 1) u

/-- Gradient of the Q1 interpolant in physical coordinates (gradfatpt in
ice.c), using the basis-gradient weights gx = {-1,1,1,-1}, gy = {-1,-1,1,1}
and dividing by dx, dy. -/
def gradfatpt (u v : ℤ) (xi eta dx dy : ℚ) (f : ℤ → ℤ → ℚ) : Grad :=
  ⟨(-(1 - eta) * f v u + (1 - eta) * f v (u + 1)
      + eta * f (v + 1) (u + 1) + - eta * f (v + 1) u) / dx,
   (-(1 - xi) * f v u + - xi * f v (u + 1)
      + xi * f (v + 1) (u + 1) + (1 - xi) * f (v + 1) u) / dy⟩

/-- Element offsets je of the 8 control-volume boundary quadrature points
(the table je[8] = {0, 0, -1, -1, -1, -1, 0, 0} in ice.c). -/
def je : Fin 8 → ℤ
  | 0 => 0 | 1 => 0 | 2 => -1 | 3 => -1 | 4 => -1 | 5 => -1 | 6 => 0 | 7 => 0

/-- Element offsets ke of the 8 control-volume boundary quadrature points
(the table ke[8] = {0, 0, 0, 0, -1, -1, -1, -1} in ice.c). -/
def ke : Fin 8 → ℤ
  | 0 => 0 | 1 => 0 | 2 => 0 | 3 => 0 | 4 => -1 | 5 => -1 | 6 => -1 | 7 => -1

/-- Per-element flux-component index used at each of the 8 points (the table
ce[8] = {0, 3, 1, 0, 2, 1, 3, 2} in ice.c). -/
def ce : Fin 8 → Fin 4
  | 0 => 0 | 1 => 3 | 2 => 1 | 3 => 0 | 4 => 2 | 5 => 1 | 6 => 3 | 7 => 2

/-- Direction of the flux at the 4 points in each element (xdire in ice.c). -/
def xdire : Fin 4 → Bool
  | 0 => true | 1 => false | 2 => true | 3 => false

/-- Local x-coordinates of the 4 quadrature points in an element
(locx[4] = {0.5, 0.75, 0.5, 0.25} in ice.c). -/
def locx : Fin 4 → ℚ
  | 0 => 1/2 | 1 => 3/4 | 2 => 1/2 | 3 => 1/4

/-- Local y-coordinates of the 4 quadrature points in an element
(locy[4] = {0.25, 0.5, 0.75, 0.5} in ice.c). -/
def locy : Fin 4 → ℚ
  | 0 => 1/4 | 1 => 1/2 | 2 => 3/4 | 3 => 1/2

/-- Quadrature coefficients along the control-volume boundary (coeff[8] in
FormIFunctionLocal). -/
def coeff (dx dy : ℚ) : Fin 8 → ℚ
  | 0 => dy/2 | 1 => dx/2 | 2 => dx/2 | 3 => -dy/2
  | 4 => -dy/2 | 5 => -dx/2 | 6 => -dx/2 | 7 => dy/2

/-- Local coordinates at which the upwinded thickness Hup is sampled, for
quadrature point c with bed gradient gb: when lambda > 0, the coordinate in
the flux direction is (1-lambda)/2 if the bed slope in that direction is
non-positive and (1+lambda)/2 otherwise, the other coordinate staying at the
quadrature point; when lambda = 0 the point is unshifted.  This factors the
upwind branch of the element loop of FormIFunctionLocal. -/
def upwindCoords (lambda : ℚ) (c : Fin 4) (gb : Grad) : ℚ × ℚ :=
  if 0 < lambda then
    if xdire c then
      ((if gb.x ≤ 0 then (1 - lambda)/2 else (1 + lambda)/2), locy c)
    else
      (locx c, (if gb.y ≤ 0 then (1 - lambda)/2 else (1 + lambda)/2))
  else (locx c, locy c)

/-- Flux value stored in aqquad[k][j][c] by the element loop of
FormIFunctionLocal: interpolate H and the gradients of H and of the bed buffer
ab at quadrature point c of element (j,k), apply upwind sampling of Hup when
lambda > 0, and call getflux. -/
def aqquad (u : AppCtx) (dx dy : ℚ) (aH ab : ℤ → ℤ → ℚ) (k j : ℤ)
    (c : Fin 4) : ℚ :=
  let H := fieldatpt j k (locx c) (locy c) aH
  let gH := gradfatpt j k (locx c) (locy c) dx dy aH
  let gb := gradfatpt j k (locx c) (locy c) dx dy ab
  let Hup := if 0 < u.lambda then
      fieldatpt j k (upwindCoords u.lambda c gb).1 (upwindCoords u.lambda c gb).2 aH
    else H
  getflux u gH gb H Hup (xdire c)

/-- Climatic mass balance M(s) = zgrad * (s - ela) (M_CMBModel in ice.c). -/
def M_CMBModel (ela zgrad s : ℚ) : ℚ := zgrad * (s - ela)

/-- Entry am[k][j] written by the CMB loop of FormIFunctionLocal (executed
whenever user->cmb is non-null, which main guarantees): the CMB model
evaluated at surface elevation ab[k][j] + aH[k][j]. -/
def amfield (u : AppCtx) (aH ab : ℤ → ℤ → ℚ) (k j : ℤ) : ℚ :=
  M_CMBModel u.ela u.zgrad (ab k j + aH k j)

/-- Residual entry FF[k][j] produced by FormIFunctionLocal of ice.c on a
periodic mx-by-my grid: FF = - am * dx * dy + the weighted sum over the 8
control-volume boundary quadrature points, with dx = L/mx and dy = L/my.
The routine receives the time t and the time-derivative field aHdot but its
body never reads them (the dHdt contribution is only a FIXME comment in the
source), so they are unused parameters here, exactly as in the code.  The bed
buffer ab is an explicit argument because the C routine never initializes it
(see the header comment of this file). -/
def FormIFunctionLocal (u : AppCtx) (mx my : ℕ) (t : ℚ)
    (aH aHdot ab : ℤ → ℤ → ℚ) (k j : ℤ) : ℚ :=
  let dx := u.L / (mx : ℚ);
  let dy := u.L / (my : ℚ);
  - (amfield u aH ab k j) * dx * dy
    + ∑ s : Fin 8, coeff dx dy s * aqquad u dx dy aH ab (k + ke s) (j + je s) (ce s)

end Ice

/-- A concrete context used in counterexample evaluations: unit-size numbers,
Glen exponent n = 3 (eSlope = 1, eThick = 5), no continuation (eps = 0), no
upwinding (lambda = 0), CMB parameters ela = 1, zgrad = 1. -/
def ctxCMB : Ice.AppCtx :=
  { L := 2, n := 3, eSlope := 1, eThick := 5, Gamma := 1, D0 := 1,
    eps := 0, delta := 1, lambda := 0, ela := 1, zgrad := 1 }

/-- Same context but with zgrad = 0, so the CMB vanishes identically. -/
def ctxNoCMB : Ice.AppCtx :=
  { ctxCMB with zgrad := 0 }

/-- A zero-CMB context for the uniform-field conservation claim: Glen
exponent n = 3 (eSlope = 1, eThick = 5), delta = 0, eps = 0, lambda = 0,
zgrad = 0, on the 4x4 periodic grid with L = 4 (so dx = dy = 1). -/
def ctxFlat : Ice.AppCtx :=
  { L := 4, n := 3, eSlope := 1, eThick := 5, Gamma := 1, D0 := 1,
    eps := 0, delta := 0, lambda := 0, ela := 0, zgrad := 0 }

/-- A bed bump of height 1 at node (0,0) of the 4x4 grid, extended
periodically to the ghost indices (period 4 in each direction). -/
def bedBump : ℤ → ℤ → ℚ := fun k j => if j % 4 = 0 ∧ k % 4 = 0 then 1 else 0

/-- A context meeting every premise of the flux-sign claim except that
eps = 0: delta = 1 > 0, eps = 0 (in [0,1)), D0 = 1 > 0, Gamma = 1 > 0. -/
def ctxFlux : Ice.AppCtx :=
  { L := 1, n := 3, eSlope := 1, eThick := 5, Gamma := 1, D0 := 1,
    eps := 0, delta := 1, lambda := 0, ela := 0, zgrad := 0 }

/-- The same flux context with eps = 1/2, inside the amended range (0,1). -/
def ctxFluxPos : Ice.AppCtx := { ctxFlux with eps := 1/2 }

/-- Run configuration produced by SetFromOptionsAppCtx of ice.c (the fields of
struct AppCtx it sets). -/
structure IceConfig where
  L : ℚ
  secpera : ℚ
  g : ℚ
  rho : ℚ
  A : ℚ
  initmagic : ℚ
  delta : ℚ
  lambda : ℚ
  n : ℚ
  D0 : ℚ
  eps : ℚ
  Gamma : ℚ

/-- Configuration stage of ice.c (SetFromOptionsAppCtx): hard defaults, then
command-line overrides (modelled by passing the post-option effective values
of A, delta, initmagic, lambda, n), then the fatal rejection of n <= 1 right
after the n option is read — before the derived Gamma and before any grid
object exists — and finally Gamma = 2 * (rho*g)^n * A / (n+2).  The real
power at the possibly non-integer exponent n is modelled by the uninterpreted
argument powReal, whose value is stored but never inspected here. -/
def SetFromOptionsAppCtx (powReal : ℚ → ℚ → ℚ)
    (A delta initmagic lambda n : ℚ) : Except String IceConfig :=
  if n ≤ 1 then Except.error "ERROR: n not allowed ... n > 1 is required"
  else Except.ok
    { L := 900000, secpera := 31556926, g := 981/100, rho := 910, A := A,
      initmagic := initmagic, delta := delta, lambda := lambda, n := n,
      D0 := 10, eps := 1/1000,
      Gamma := 2 * powReal (910 * (981/100)) n * A / (n + 2) }

namespace Dnl

/-- Value of a gradient at a point (struct Grad in dnl.c). -/
structure Grad where
  x : ℚ
  y : ℚ
deriving DecidableEq

/-- Configuration read by FormFunctionLocal of dnl.c and its helpers.  The
dnl.c source is transitional: its helpers read user->L, user->n_ice,
user->Gamma, user->verif and user->cmb, which are not members of the AppCtx
struct it declares; we model the union of the fields the residual path
actually reads.  As for ice.c, the real powers at exponents (n-1)/2 and n+2
are carried as the natural exponents eSlope and eThick.  The CMB model
M_CMBModel and the verification CMB DomeCMB invoked in the node loop live in
the missing header ice.h: M_CMBModel is modelled from the spec (section 4.4,
M(s) = zgrad * (s - ela)) through the fields ela and zgrad, and DomeCMB is
carried as an arbitrary function field domeCMB (no claim depends on it).
The bed provider b(x,y) is the function field bed. -/
structure AppCtx where
  L : ℚ
  n : ℚ
  eSlope : ℕ
  eThick : ℕ
  Gamma : ℚ
  D0 : ℚ
  eps : ℚ
  delta : ℚ
  lambda : ℚ
  check_admissible : Bool
  verif : Bool
  ela : ℚ
  zgrad : ℚ
  domeCMB : ℚ → ℚ → ℚ
  bed : ℚ → ℚ → ℚ

/-- Slope-dependent factor of the SIA flux (sigma in dnl.c):
Gamma * slopesqr^((n-1)/2) with slopesqr = (gH.x+gb.x)^2 + (gH.y+gb.y)^2 +
delta^2 (no branch on n here, unlike getdelta of ice.c). -/
def sigma (gH gb : Grad) (u : AppCtx) : ℚ :=
  u.Gamma * ((gH.x + gb.x) ^ 2 + (gH.y + gb.y) ^ 2 + u.delta ^ 2) ^ u.eSlope

/-- Pseudo-velocity from bed slope (W in dnl.c): W = - sigma * grad b. -/
def W (sigma : ℚ) (gb : Grad) : Grad :=
  ⟨- sigma * gb.x, - sigma * gb.y⟩

/-- Diffusivity from the continuation scheme (DCS in dnl.c):
D(eps) = (1-eps) * sigma * |H|^(n+2) + eps * D0. -/
def DCS (sigma H : ℚ) (u : AppCtx) : ℚ :=
  (1 - u.eps) * sigma * |H| ^ u.eThick + u.eps * u.D0

/-- Flux component from the non-sliding SIA (SIAflux in dnl.c).  The output
pointers D and q are modelled by the Booleans Dptr and qptr saying whether
they are non-null; the result is the pair of what got stored (the optional
diffusivity and the flux component), or an error when the routine stores
through a null q: the C guard is (xdir && q), so a null q falls into the
else-branch store *q = (y-component) for either value of xdir. -/
def SIAflux (gH gb : Grad) (H Hup : ℚ) (xdir : Bool) (Dptr qptr : Bool)
    (u : AppCtx) : Except Unit (Option ℚ × ℚ) :=
  let mysig := sigma gH gb u
  let myD := DCS mysig H u
  let myW := W mysig gb
  let Dout := if Dptr then some myD else none
  if xdir && qptr then
    Except.ok (Dout, - myD * gH.x + myW.x * |Hup| ^ u.eThick)
  else if qptr then
    Except.ok (Dout, - myD * gH.y + myW.y * |Hup| ^ u.eThick)
  else Except.error ()

/-- Bilinear Q1 interpolation from the 4 corner values (fieldatpt in dnl.c;
the C array f[4] is passed as four scalars f0..f3). -/
def fieldatpt (xi eta f0 f1 f2 f3 : ℚ) : ℚ :=
  (1 - xi) * (1 - eta) * f0 + xi * (1 - eta) * f1
    + xi * eta * f2 + (1 - xi) * eta * f3

/-- Q1 interpolation of a grid field on the cell with lower-left node (u,v)
(fieldatptArray in dnl.c). -/
def fieldatptArray (u v : ℤ) (xi eta : ℚ) (f : ℤ → ℤ → ℚ) : ℚ :=
  fieldatpt xi eta (f v u) (f v (u + 1)) (f (v + 1) (u + 1)) (f (v + 1) u)

/-- Gradient of the Q1 interpolant from the 4 corner values (gradfatpt in
dnl.c), with the basis-gradient weights gx = {-1,1,1,-1}, gy = {-1,-1,1,1},
divided by dx, dy. -/
def gradfatpt (xi eta dx dy f0 f1 f2 f3 : ℚ) : Grad :=
  ⟨(-(1 - eta) * f0 + (1 - eta) * f1 + eta * f2 + - eta * f3) / dx,
   (-(1 - xi) * f0 + - xi * f1 + xi * f2 + (1 - xi) * f3) / dy⟩

/-- Gradient of the Q1 interpolant of a grid field (gradfatptArray). -/
def gradfatptArray (u v : ℤ) (xi eta dx dy : ℚ) (f : ℤ → ℤ → ℚ) : Grad :=
  gradfatpt xi eta dx dy (f v u) (f v (u + 1)) (f (v + 1) (u + 1)) (f (v + 1) u)

/-- Element offsets je of the 8 control-volume boundary points (dnl.c). -/
def je : Fin 8 → ℤ
  | 0 => 0 | 1 => 0 | 2 => -1 | 3 => -1 | 4 => -1 | 5 => -1 | 6 => 0 | 7 => 0

/-- Element offsets ke of the 8 control-volume boundary points (dnl.c). -/
def ke : Fin 8 → ℤ
  | 0 => 0 | 1 => 0 | 2 => 0 | 3 => 0 | 4 => -1 | 5 => -1 | 6 => -1 | 7 => -1

/-- Per-element flux-component index ce at each of the 8 points (dnl.c). -/
def ce : Fin 8 → Fin 4
  | 0 => 0 | 1 => 3 | 2 => 1 | 3 => 0 | 4 => 2 | 5 => 1 | 6 => 3 | 7 => 2

/-- Direction of the flux at the 4 points in each element (xdire in dnl.c). -/
def xdire : Fin 4 → Bool
  | 0 => true | 1 => false | 2 => true | 3 => false

/-- Local x-coordinates of the 4 quadrature points (locx in dnl.c). -/
def locx : Fin 4 → ℚ
  | 0 => 1/2 | 1 => 3/4 | 2 => 1/2 | 3 => 1/4

/-- Local y-coordinates of the 4 quadrature points (locy in dnl.c). -/
def locy : Fin 4 → ℚ
  | 0 => 1/4 | 1 => 1/2 | 2 => 3/4 | 3 => 1/2

/-- Quadrature coefficients along the control-volume boundary (coeff[8] in
FormFunctionLocal of dnl.c). -/
def coeff (dx dy : ℚ) : Fin 8 → ℚ
  | 0 => dy/2 | 1 => dx/2 | 2 => dx/2 | 3 => -dy/2
  | 4 => -dy/2 | 5 => -dx/2 | 6 => -dx/2 | 7 => dy/2

/-- Local coordinates at which the upwinded thickness Hup is sampled by the
element loop of FormFunctionLocal (the lxup/lyup computation): when
lambda > 0, the coordinate in the flux direction is (1-lambda)/2 if the bed
slope in that direction is non-positive and (1+lambda)/2 otherwise, the other
coordinate staying at the quadrature point; when lambda = 0 the point is
unshifted. -/
def upwindCoords (lambda : ℚ) (c : Fin 4) (gb : Grad) : ℚ × ℚ :=
  if 0 < lambda then
    if xdire c then
      ((if gb.x ≤ 0 then (1 - lambda)/2 else (1 + lambda)/2), locy c)
    else
      (locx c, (if gb.y ≤ 0 then (1 - lambda)/2 else (1 + lambda)/2))
  else (locx c, locy c)

/-- Local coordinate, in the direction of the flux, of the point at which Hup
is sampled. -/
def fluxdirUp (lambda : ℚ) (c : Fin 4) (gb : Grad) : ℚ :=
  if xdire c then (upwindCoords lambda c gb).1 else (upwindCoords lambda c gb).2

/-- Flux value stored in (aqquad[c])[k][j] by the element loop of
FormFunctionLocal: interpolate H and the gradients of H and b at quadrature
point c of element (j,k), apply upwind sampling of Hup when lambda > 0, and
take the q output of SIAflux called with both output pointers non-null (the
error branch is unreachable there and defaults to 0). -/
def aqquad (u : AppCtx) (dx dy : ℚ) (aH ab : ℤ → ℤ → ℚ) (k j : ℤ)
    (c : Fin 4) : ℚ :=
  let H := fieldatptArray j k (locx c) (locy c) aH
  let gH := gradfatptArray j k (locx c) (locy c) dx dy aH
  let gb := gradfatptArray j k (locx c) (locy c) dx dy ab
  let Hup := if 0 < u.lambda then
      fieldatptArray j k (upwindCoords u.lambda c gb).1 (upwindCoords u.lambda c gb).2 aH
    else H
  match SIAflux gH gb H Hup (xdire c) true true u with
  | Except.ok (_, q) => q
  | Except.error _ => 0

/-- Climatic mass balance model of the missing header ice.h, called by the
node loop of FormFunctionLocal.  Modelled from the spec: section 4.4 defines
M(s) = zgrad * (s - ela), a linear source in surface elevation s = b + H. -/
def M_CMBModel (u : AppCtx) (s : ℚ) : ℚ := u.zgrad * (s - u.ela)

/-- Boundary test of the fixed-boundary grid: node (j,k) lies on the Dirichlet
boundary iff j = 0, j = mx-1, k = 0 or k = my-1 (the condition of the staging
loop of FormFunctionLocal). -/
def isBdry (mx my : ℕ) (j k : ℤ) : Bool :=
  j = 0 || j = (mx : ℤ) - 1 || k = 0 || k = (my : ℤ) - 1

/-- Staged local copy of the iterate (the Hcopy buffer of FormFunctionLocal):
boundary nodes are forced to the prescribed value 0, interior nodes copy the
iterate. -/
def Hcopy (mx my : ℕ) (aHin : ℤ → ℤ → ℚ) : ℤ → ℤ → ℚ :=
  fun k j => if isBdry mx my j k then 0 else aHin k j

/-- Bed array of FormFunctionLocal: zero in the verification case, otherwise
the bed provider evaluated at the node coordinates.  Modelled from the spec
for the non-verification branch: FormBedLocal lives in the missing header
ice.h, and the spec (sections 2 and 4.5 step 2) describes it as the pure bed
function b(x,y) evaluated over the local range; the node loop of
FormFunctionLocal itself uses coordinates x = j*dx, y = k*dy.  (The source
notes, in a FIXME, that the cross-subdomain ghost exchange for this array is
missing; on the serial grid modelled here the pointwise evaluation is exactly
what the code computes.) -/
def abLocal (u : AppCtx) (dx dy : ℚ) : ℤ → ℤ → ℚ :=
  fun k j => if u.verif then 0 else u.bed (j * dx) (k * dy)

/-- All owned node indices (k, j) in the row-major order of the staging loop
of FormFunctionLocal on the serial grid: k ascending outer, j ascending
inner (the loop starts at ys-1 and ends at ys+ym, but its range check skips
everything outside [0, my-1] x [0, mx-1]). -/
def nodePairs (mx my : ℕ) : List (ℤ × ℤ) :=
  (List.range my).flatMap fun (k : ℕ) =>
    (List.range mx).map fun (j : ℕ) => ((k : ℤ), (j : ℤ))

/-- First node, in staging-loop order, at which the iterate is negative. -/
def findNegNode (mx my : ℕ) (aHin : ℤ → ℤ → ℚ) : Option (ℤ × ℤ) :=
  (nodePairs mx my).find? fun p => decide (aHin p.1 p.2 < 0)

/-- The residual function written by FormFunctionLocal on the serial
mx-by-my grid with dx = L/(mx-1), dy = L/(my-1): at a Dirichlet boundary
node the residual is the iterate value itself (iterate minus the prescribed
value 0, written during the staging loop); at an interior node it is
- M * dx * dy plus the quadrature sum over the 8 control-volume boundary
points, evaluated from the staged copy and the bed array. -/
def FFfun (u : AppCtx) (mx my : ℕ) (aHin : ℤ → ℤ → ℚ) : ℤ → ℤ → ℚ :=
  fun k j =>
    let dx := u.L / ((mx : ℚ) - 1);
    let dy := u.L / ((my : ℚ) - 1);
    let aH := Hcopy mx my aHin;
    let ab := abLocal u dx dy;
    if isBdry mx my j k then aHin k j
    else
      let M := if u.verif then u.domeCMB (j * dx) (k * dy)
               else M_CMBModel u (ab k j + aH k j);
      - M * dx * dy
        + ∑ s : Fin 8, coeff dx dy s * aqquad u dx dy aH ab (k + ke s) (j + je s) (ce s)

/-- FormFunctionLocal of dnl.c on the serial grid: when the opt-in
admissibility check is enabled and some examined iterate value is negative,
the evaluation aborts with a fatal error carrying the offending node index
and value (j, k, aHin[k][j]), exactly as the SETERRQ3 call reports them;
otherwise it produces the residual function FFfun. -/
def FormFunctionLocal (u : AppCtx) (mx my : ℕ) (aHin : ℤ → ℤ → ℚ) :
    Except (ℤ × ℤ × ℚ) (ℤ → ℤ → ℚ) :=
  if u.check_admissible then
    match findNegNode mx my aHin with
    | some (k, j) => Except.error (j, k, aHin k j)
    | none => Except.ok (FFfun u mx my aHin)
  else Except.ok (FFfun u mx my aHin)

end Dnl

/-- A concrete dnl.c context (check disabled, non-verification, flat zero
bed, no CMB). -/
def ctxDnl : Dnl.AppCtx :=
  { L := 4, n := 3, eSlope := 1, eThick := 5, Gamma := 1, D0 := 1, eps := 0,
    delta := 1, lambda := 1/4, check_admissible := false, verif := false,
    ela := 0, zgrad := 0, domeCMB := fun _ _ => 0, bed := fun _ _ => 0 }

/-- The same dnl.c context with the admissibility check enabled. -/
def ctxDnlChk : Dnl.AppCtx := { ctxDnl with check_admissible := true }

/-- A concrete iterate on the 3x3 grid holding -2 at node (k,j) = (1,1) and
k + j + 5 elsewhere. -/
def aHneg : ℤ → ℤ → ℚ :=
  fun k j => if k = 1 ∧ j = 1 then -2 else (k : ℚ) + (j : ℚ) + 5

/-- A concrete non-negative iterate. -/
def aHpos : ℤ → ℤ → ℚ := fun k j => (k : ℚ) + (j : ℚ) + 5

/-- The iterate aHpos with its value at the interior node (1,1) replaced. -/
def aHposMod : ℤ → ℤ → ℚ :=
  fun k j => if k = 1 ∧ j = 1 then 9 else (k : ℚ) + (j : ℚ) + 5

/-- Local coordinate, in the direction of the flux, of the point at which Hup
is sampled in the element loop of FormIFunctionLocal of ice.c. -/
def Ice.fluxdirUp (lambda : ℚ) (c : Fin 4) (gb : Ice.Grad) : ℚ :=
  if Ice.xdire c then (Ice.upwindCoords lambda c gb).1
  else (Ice.upwindCoords lambda c gb).2

/-- Interpolating a pointwise-constant field gives that constant (the Q1
weights sum to 1). -/
theorem Ice.fieldatpt_const (H0 : ℚ) (f : ℤ → ℤ → ℚ) (h : ∀ k j, f k j = H0)
    (u v : ℤ) (xi eta : ℚ) : Ice.fieldatpt u v xi eta f = H0 := by
  simp only [Ice.fieldatpt, h]; ring

/-- The interpolated gradient of a pointwise-constant field vanishes. -/
theorem Ice.gradfatpt_const (b0 : ℚ) (f : ℤ → ℤ → ℚ) (h : ∀ k j, f k j = b0)
    (u v : ℤ) (xi eta dx dy : ℚ) :
    Ice.gradfatpt u v xi eta dx dy f = ⟨0, 0⟩ := by
  simp only [Ice.gradfatpt, h, Ice.Grad.mk.injEq]
  constructor <;> rw [div_eq_zero_iff] <;> left <;> ring

/-- With zero thickness gradient and zero bed gradient, getflux returns
zero in either direction: the diffusive part multiplies gH = 0 and the
pseudo-velocity W vanishes with gb = 0. -/
theorem Ice.getflux_flat (u : Ice.AppCtx) (H Hup : ℚ) (xdir : Bool) :
    Ice.getflux u ⟨0, 0⟩ ⟨0, 0⟩ H Hup xdir = 0 := by
  cases xdir <;> simp [Ice.getflux, Ice.getW]

/-- Every per-element flux vanishes when both the field and the bed buffer
are pointwise constant. -/
theorem Ice.aqquad_const (u : Ice.AppCtx) (dx dy H0 b0 : ℚ)
    (aH ab : ℤ → ℤ → ℚ) (hH : ∀ k j, aH k j = H0) (hb : ∀ k j, ab k j = b0)
    (k j : ℤ) (c : Fin 4) : Ice.aqquad u dx dy aH ab k j c = 0 := by
  simp only [Ice.aqquad, Ice.gradfatpt_const H0 aH hH, Ice.gradfatpt_const b0 ab hb]
  exact Ice.getflux_flat u _ _ _

/-- Claim C1 (status: code_bug).  The residual produced by FormIFunctionLocal
of ice.c is invariant under arbitrary changes of the time-derivative field
aHdot (and of the time t): the routine never reads them, so the implicit
residual does NOT depend on Hdot, contradicting the claim and the program's
own documentation (help string F(H,H_t) = G(H); FIXME at ice.c:398 says the
dHdt term is still to be added). -/
theorem C1_residual_independent_of_Hdot (u : Ice.AppCtx) (mx my : ℕ)
    (t t' : ℚ) (aH aHdot aHdot' ab : ℤ → ℤ → ℚ) (k j : ℤ) :
    Ice.FormIFunctionLocal u mx my t aH aHdot ab k j
      = Ice.FormIFunctionLocal u mx my t' aH aHdot' ab k j := rfl

/-- Claim C2 (status: code_bug).  The CMB source term is computed inside
FormIFunctionLocal and enters the implicit residual: with all fields zero on a
2x2 periodic grid (so every flux vanishes), the residual at node (0,0) is
zgrad * ela * dx * dy = 1 when (ela, zgrad) = (1, 1), and only vanishes when
the CMB itself is zero (zgrad = 0).  The claim (and the FIXME comments at
ice.c:304 and ice.c:377) say the CMB term should instead be injected by the
separate RHS routine, leaving only the flux-divergence part here. -/
theorem C2_CMB_is_inside_IFunction :
    Ice.FormIFunctionLocal ctxCMB 2 2 0 (fun _ _ => 0) (fun _ _ => 0)
        (fun _ _ => 0) 0 0 = 1
      ∧ Ice.FormIFunctionLocal ctxNoCMB 2 2 0 (fun _ _ => 0) (fun _ _ => 0)
        (fun _ _ => 0) 0 0 = 0 := by
  constructor <;>
    simp [Ice.FormIFunctionLocal, Ice.amfield, Ice.M_CMBModel, Ice.aqquad,
          Ice.getflux, Ice.getdelta, Ice.getW, Ice.DCS, Ice.fieldatpt,
          Ice.gradfatpt, Ice.coeff, Ice.upwindCoords, ctxCMB, ctxNoCMB,
          Fin.sum_univ_eight]

/-- Claim C3 (status: code_bug).  In ice.c the bed field is never obtained
from the Bed provider: FormIFunctionLocal declares the pointer ab and reads it
without ever calling FormBedLocal (or any other provider), so the residual is
a function of whatever the uninitialized buffer happens to contain.  With
identical grid, context, iterate and time-derivative, two different buffer
contents (all zeros vs. all ones) give different residuals at node (0,0). -/
theorem C3_bed_never_obtained :
    Ice.FormIFunctionLocal ctxCMB 2 2 0 (fun _ _ => 0) (fun _ _ => 0)
        (fun _ _ => 0) 0 0
      ≠ Ice.FormIFunctionLocal ctxCMB 2 2 0 (fun _ _ => 0) (fun _ _ => 0)
        (fun _ _ => 1) 0 0 := by
  simp [Ice.FormIFunctionLocal, Ice.amfield, Ice.M_CMBModel, Ice.aqquad,
        Ice.getflux, Ice.getdelta, Ice.getW, Ice.DCS, Ice.fieldatpt,
        Ice.gradfatpt, Ice.coeff, Ice.upwindCoords, ctxCMB,
        Fin.sum_univ_eight]

/-- Claim C4, counterexample.  A constant admissible field H = 1 on the 4x4
periodic grid with zero CMB (zgrad = 0) does NOT give a zero residual: over
the bed bump bedBump, the pseudo-velocity term W * |Hup|^(n+2) of the flux
survives for a uniform field, and the control-volume quadrature at node (0,0)
sums to 39/16, not 0. -/
theorem C4_counterexample :
    (0 : ℚ) ≤ 1 ∧ ctxFlat.zgrad = 0 ∧
      Ice.FormIFunctionLocal ctxFlat 4 4 0 (fun _ _ => 1) (fun _ _ => 0)
        bedBump 0 0 ≠ 0 := by
  refine ⟨by norm_num, rfl, ?_⟩
  simp only [Ice.FormIFunctionLocal, Fin.sum_univ_eight]
  norm_num [Ice.amfield, Ice.M_CMBModel, Ice.aqquad, Ice.getflux,
    Ice.getdelta, Ice.getW, Ice.DCS, Ice.fieldatpt, Ice.gradfatpt, Ice.coeff,
    Ice.upwindCoords, ctxFlat, bedBump, Ice.je, Ice.ke, Ice.ce, Ice.xdire,
    Ice.locx, Ice.locy]

/-- Claim C4 as amended (status: corrected): for every constant field
H = H0 >= 0 over a constant (flat) bed with zero CMB (zgrad = 0), the
residual assembled by FormIFunctionLocal is zero at every node; the original
claim omitted the flat-bed requirement, and a non-flat bed produces a nonzero
advective flux divergence even for a uniform field (see the counterexample). -/
theorem C4_uniform_field_zero_residual (u : Ice.AppCtx) (mx my : ℕ)
    (t H0 b0 : ℚ) (aH aHdot ab : ℤ → ℤ → ℚ)
    (hH : ∀ k j, aH k j = H0) (hb : ∀ k j, ab k j = b0)
    (hH0 : 0 ≤ H0) (hz : u.zgrad = 0) (k j : ℤ) :
    Ice.FormIFunctionLocal u mx my t aH aHdot ab k j = 0 := by
  simp [Ice.FormIFunctionLocal, Ice.amfield, Ice.M_CMBModel, hz,
        Ice.aqquad_const u _ _ H0 b0 aH ab hH hb]

/-- Witness for the amended C4 theorem at a concrete input: H = 1, bed = 5,
zgrad = 0 on the 2x2 grid. -/
theorem C4_witness :
    Ice.FormIFunctionLocal ctxNoCMB 2 2 0 (fun _ _ => 1) (fun _ _ => 0)
      (fun _ _ => 5) 0 0 = 0 :=
  C4_uniform_field_zero_residual ctxNoCMB 2 2 0 1 5 _ _ _
    (fun _ _ => rfl) (fun _ _ => rfl) (by norm_num) rfl 0 0

/-- Claim C5, counterexample.  At gH = (1,0) (so gH.x = 1 > 0), gb = (0,0),
delta = 1 > 0, eps = 0 (allowed by the claim's range [0,1)), D0 = 1 > 0,
Gamma = 1 > 0, but thickness H = 0, the diffusivity D = (1-eps)*sigma*|H|^5
+ eps*D0 is zero, and the x-flux is 0, not strictly negative: the claim
fails at eps = 0 with vanishing thickness. -/
theorem C5_counterexample :
    (0 : ℚ) < 1 ∧ 0 < ctxFlux.delta ∧ 0 ≤ ctxFlux.eps ∧ ctxFlux.eps < 1 ∧
      0 < ctxFlux.D0 ∧ 0 < ctxFlux.Gamma ∧
      Ice.getflux ctxFlux ⟨1, 0⟩ ⟨0, 0⟩ 0 0 true = 0 ∧
      ¬ Ice.getflux ctxFlux ⟨1, 0⟩ ⟨0, 0⟩ 0 0 true < 0 := by
  simp [Ice.getflux, Ice.getdelta, Ice.getW, Ice.DCS, ctxFlux]

/-- Claim C5 as amended (status: corrected): for eps in the open interval
(0,1) (rather than [0,1)), positive delta, D0 and Gamma, zero bed slope and
gH.x > 0, the x-direction flux of getflux equals -D * gH.x with diffusivity
D = DCS(...) > 0, hence is strictly negative; at eps = 0 the diffusivity can
vanish (H = 0), see the counterexample. -/
theorem C5_flux_negative (u : Ice.AppCtx) (gH : Ice.Grad) (H Hup : ℚ)
    (hx : 0 < gH.x) (hd : 0 < u.delta) (he0 : 0 < u.eps) (he1 : u.eps < 1)
    (hD0 : 0 < u.D0) (hG : 0 < u.Gamma) :
    Ice.getflux u gH ⟨0, 0⟩ H Hup true
        = - Ice.DCS (Ice.getdelta u gH ⟨0, 0⟩) H u.eThick u.eps u.D0 * gH.x
      ∧ 0 < Ice.DCS (Ice.getdelta u gH ⟨0, 0⟩) H u.eThick u.eps u.D0
      ∧ Ice.getflux u gH ⟨0, 0⟩ H Hup true < 0 := by
  have hsig : 0 < Ice.getdelta u gH ⟨0, 0⟩ := by
    rw [Ice.getdelta]
    split
    · have hsq : (0:ℚ) < (gH.x + 0) ^ 2 + (gH.y + 0) ^ 2 + u.delta ^ 2 := by
        positivity
      positivity
    · exact hG
  have hD : 0 < Ice.DCS (Ice.getdelta u gH ⟨0, 0⟩) H u.eThick u.eps u.D0 := by
    rw [Ice.DCS]
    have h1 : 0 ≤ (1 - u.eps) * Ice.getdelta u gH ⟨0, 0⟩ * |H| ^ u.eThick := by
      have : 0 ≤ 1 - u.eps := by linarith
      positivity
    have h2 : 0 < u.eps * u.D0 := mul_pos he0 hD0
    linarith
  have hval : Ice.getflux u gH ⟨0, 0⟩ H Hup true
      = - Ice.DCS (Ice.getdelta u gH ⟨0, 0⟩) H u.eThick u.eps u.D0 * gH.x := by
    simp [Ice.getflux, Ice.getW]
  refine ⟨hval, hD, ?_⟩
  rw [hval]
  have := mul_pos hD hx
  linarith

/-- Witness for the amended C5 theorem at a concrete input: eps = 1/2,
gH = (1,0), H = Hup = 1. -/
theorem C5_witness :
    Ice.getflux ctxFluxPos ⟨1, 0⟩ ⟨0, 0⟩ 1 1 true
        = - Ice.DCS (Ice.getdelta ctxFluxPos ⟨1, 0⟩ ⟨0, 0⟩) 1
            ctxFluxPos.eThick ctxFluxPos.eps ctxFluxPos.D0
            * (Ice.Grad.mk 1 0).x
      ∧ 0 < Ice.DCS (Ice.getdelta ctxFluxPos ⟨1, 0⟩ ⟨0, 0⟩) 1
            ctxFluxPos.eThick ctxFluxPos.eps ctxFluxPos.D0
      ∧ Ice.getflux ctxFluxPos ⟨1, 0⟩ ⟨0, 0⟩ 1 1 true < 0 :=
  C5_flux_negative ctxFluxPos ⟨1, 0⟩ 1 1 (by norm_num) (by norm_num [ctxFluxPos, ctxFlux])
    (by norm_num [ctxFluxPos, ctxFlux]) (by norm_num [ctxFluxPos, ctxFlux])
    (by norm_num [ctxFluxPos, ctxFlux]) (by norm_num [ctxFluxPos, ctxFlux])

/-- A node index (k, j) of the serial grid, with 0 <= k < my and
0 <= j < mx, is listed in nodePairs, the staging-loop enumeration. -/
theorem Dnl.mem_nodePairs {mx my : ℕ} {k j : ℤ} (hk0 : 0 ≤ k) (hk1 : k < my)
    (hj0 : 0 ≤ j) (hj1 : j < mx) : (k, j) ∈ Dnl.nodePairs mx my := by
  have hk : k.toNat ∈ List.range my := List.mem_range.mpr (by omega)
  have hj : j.toNat ∈ List.range mx := List.mem_range.mpr (by omega)
  have he : ((((k.toNat : ℕ) : ℤ), ((j.toNat : ℕ) : ℤ)) : ℤ × ℤ) = (k, j) := by
    simp [Int.toNat_of_nonneg hk0, Int.toNat_of_nonneg hj0]
  exact List.mem_flatMap.mpr ⟨k.toNat, hk, he ▸ List.mem_map_of_mem _ hj⟩

/-- Claim C6 (status: confirmed).  In the fixed-boundary variant, for any
iterate, the residual written by FormFunctionLocal at a boundary node equals
the iterate value there minus the prescribed boundary value 0, the staged
buffer Hcopy holds the prescribed value 0 at that node, and the boundary
residual is unchanged under any modification of the iterate away from that
node; with the admissibility check disabled the evaluation returns this
residual. -/
theorem C6_dirichlet_boundary (u : Dnl.AppCtx) (mx my : ℕ)
    (aHin aHin2 : ℤ → ℤ → ℚ) (k j : ℤ)
    (hb : Dnl.isBdry mx my j k = true) (hagree : aHin2 k j = aHin k j)
    (hchk : u.check_admissible = false) :
    Dnl.FFfun u mx my aHin k j = aHin k j - 0
      ∧ Dnl.Hcopy mx my aHin k j = 0
      ∧ Dnl.FFfun u mx my aHin2 k j = Dnl.FFfun u mx my aHin k j
      ∧ Dnl.FormFunctionLocal u mx my aHin
          = Except.ok (Dnl.FFfun u mx my aHin) := by
  refine ⟨?_, ?_, ?_, ?_⟩
  · simp [Dnl.FFfun, hb]
  · simp [Dnl.Hcopy, hb]
  · simp [Dnl.FFfun, hb, hagree]
  · simp [Dnl.FormFunctionLocal, hchk]

/-- Witness for the C6 theorem: grid 3x3, boundary node (k,j) = (0,2), the
iterate aHpos and a modification aHposMod that differs at the interior node
(1,1) only. -/
theorem C6_witness :
    Dnl.FFfun ctxDnl 3 3 aHpos 0 2 = aHpos 0 2 - 0
      ∧ Dnl.Hcopy 3 3 aHpos 0 2 = 0
      ∧ Dnl.FFfun ctxDnl 3 3 aHposMod 0 2 = Dnl.FFfun ctxDnl 3 3 aHpos 0 2
      ∧ Dnl.FormFunctionLocal ctxDnl 3 3 aHpos
          = Except.ok (Dnl.FFfun ctxDnl 3 3 aHpos) :=
  C6_dirichlet_boundary ctxDnl 3 3 aHpos aHposMod 0 2 (by decide)
    (by norm_num [aHpos, aHposMod]) rfl

/-- Claim C7 (status: confirmed).  For lambda in [0,1], the local coordinate
in the flux direction at which Hup is sampled lies in
[(1-lambda)/2, (1+lambda)/2]; when upwinding is active (lambda > 0) it equals
(1-lambda)/2 when the bed-slope component in the flux direction is
non-positive and (1+lambda)/2 otherwise; for lambda = 0 upwinding is disabled,
the sampling point is the unshifted quadrature point whose flux-direction
coordinate is exactly 1/2; for lambda = 1 the coordinate is exactly 0 or 1;
and the upwind rule of ice.c agrees with that of dnl.c. -/
theorem C7_upwind_coordinate (lambda : ℚ) (c : Fin 4) (gb : Dnl.Grad)
    (hl0 : 0 ≤ lambda) (hl1 : lambda ≤ 1) :
    ((1 - lambda)/2 ≤ Dnl.fluxdirUp lambda c gb
        ∧ Dnl.fluxdirUp lambda c gb ≤ (1 + lambda)/2)
      ∧ (0 < lambda → (if Dnl.xdire c then gb.x else gb.y) ≤ 0 →
          Dnl.fluxdirUp lambda c gb = (1 - lambda)/2)
      ∧ (0 < lambda → ¬ (if Dnl.xdire c then gb.x else gb.y) ≤ 0 →
          Dnl.fluxdirUp lambda c gb = (1 + lambda)/2)
      ∧ (lambda = 0 → Dnl.fluxdirUp lambda c gb = 1/2
          ∧ Dnl.upwindCoords lambda c gb = (Dnl.locx c, Dnl.locy c))
      ∧ (lambda = 1 →
          Dnl.fluxdirUp lambda c gb = 0 ∨ Dnl.fluxdirUp lambda c gb = 1)
      ∧ Ice.fluxdirUp lambda c ⟨gb.x, gb.y⟩ = Dnl.fluxdirUp lambda c gb := by
  have hagree : Ice.fluxdirUp lambda c ⟨gb.x, gb.y⟩ = Dnl.fluxdirUp lambda c gb := by
    cases c using Fin.cases with
    | zero => rfl
    | succ i => fin_cases i <;> rfl
  by_cases hpos : 0 < lambda
  · refine ⟨?_, ?_, ?_, ?_, ?_, hagree⟩
    · unfold Dnl.fluxdirUp Dnl.upwindCoords
      cases hx : Dnl.xdire c <;> by_cases hs : gb.y ≤ 0 <;> by_cases hsx : gb.x ≤ 0 <;>
          simp [hpos, hs, hsx] <;>
        first
        | (constructor <;> linarith)
        | linarith
    · unfold Dnl.fluxdirUp Dnl.upwindCoords
      cases hx : Dnl.xdire c <;> intro _ hs <;> simp at hs <;> simp [hpos, hs]
    · unfold Dnl.fluxdirUp Dnl.upwindCoords
      cases hx : Dnl.xdire c <;> intro _ hs <;> simp at hs <;>
        simp [hpos, not_le.mpr hs]
    · intro h0; rw [h0] at hpos; exact absurd hpos (by norm_num)
    · intro h1
      unfold Dnl.fluxdirUp Dnl.upwindCoords
      subst h1
      cases hx : Dnl.xdire c <;> by_cases hs : gb.y ≤ 0 <;> by_cases hsx : gb.x ≤ 0 <;>
          simp [hpos, hs, hsx] <;>
        first
        | (left; norm_num)
        | (right; norm_num)
  · have h0 : lambda = 0 := le_antisymm (not_lt.mp hpos) hl0
    subst h0
    have hmid : Dnl.fluxdirUp 0 c gb = 1/2 := by
      unfold Dnl.fluxdirUp Dnl.upwindCoords
      fin_cases c <;> simp [Dnl.xdire, Dnl.locx, Dnl.locy]
    refine ⟨⟨by rw [hmid]; norm_num, by rw [hmid]; norm_num⟩,
        fun h _ => absurd h (by norm_num), fun h _ => absurd h (by norm_num),
        fun _ => ⟨hmid, ?_⟩, fun h => absurd h (by norm_num), hagree⟩
    unfold Dnl.upwindCoords
    simp

/-- Witness for the C7 theorem at lambda = 1/4, quadrature point c = 0,
bed gradient (-1, 0). -/
theorem C7_witness :
    ((1 - 1/4 : ℚ)/2 ≤ Dnl.fluxdirUp (1/4) 0 ⟨-1, 0⟩
        ∧ Dnl.fluxdirUp (1/4) 0 ⟨-1, 0⟩ ≤ (1 + 1/4)/2)
      ∧ ((0 : ℚ) < 1/4 → (if Dnl.xdire 0 then (-1 : ℚ) else 0) ≤ 0 →
          Dnl.fluxdirUp (1/4) 0 ⟨-1, 0⟩ = (1 - 1/4)/2)
      ∧ ((0 : ℚ) < 1/4 → ¬ (if Dnl.xdire 0 then (-1 : ℚ) else 0) ≤ 0 →
          Dnl.fluxdirUp (1/4) 0 ⟨-1, 0⟩ = (1 + 1/4)/2)
      ∧ ((1/4 : ℚ) = 0 → Dnl.fluxdirUp (1/4) 0 ⟨-1, 0⟩ = 1/2
          ∧ Dnl.upwindCoords (1/4) 0 ⟨-1, 0⟩ = (Dnl.locx 0, Dnl.locy 0))
      ∧ ((1/4 : ℚ) = 1 →
          Dnl.fluxdirUp (1/4) 0 ⟨-1, 0⟩ = 0 ∨ Dnl.fluxdirUp (1/4) 0 ⟨-1, 0⟩ = 1)
      ∧ Ice.fluxdirUp (1/4) 0 ⟨-1, 0⟩ = Dnl.fluxdirUp (1/4) 0 ⟨-1, 0⟩ :=
  C7_upwind_coordinate (1/4) 0 ⟨-1, 0⟩ (by norm_num) (by norm_num)

/-- Claim C8 (status: confirmed).  With the opt-in admissibility check
enabled, a residual evaluation whose iterate is negative at some examined
node fails with a fatal error reporting an offending node index and its
(negative) value; with the check disabled the same evaluation succeeds; and
the fractional powers of the thickness use the absolute value, so DCS and
SIAflux are invariant under negating H and Hup. -/
theorem C8_admissibility_check (u : Dnl.AppCtx) (mx my : ℕ)
    (aHin : ℤ → ℤ → ℚ) (k0 j0 : ℤ) (sig H Hup : ℚ) (gH gb : Dnl.Grad)
    (xdir Dptr qptr : Bool)
    (hk0 : 0 ≤ k0) (hk1 : k0 < my) (hj0 : 0 ≤ j0) (hj1 : j0 < mx)
    (hneg : aHin k0 j0 < 0) :
    (∃ j k : ℤ,
        Dnl.FormFunctionLocal { u with check_admissible := true } mx my aHin
            = Except.error (j, k, aHin k j)
          ∧ aHin k j < 0)
      ∧ Dnl.FormFunctionLocal { u with check_admissible := false } mx my aHin
          = Except.ok (Dnl.FFfun { u with check_admissible := false } mx my aHin)
      ∧ Dnl.DCS sig (- H) u = Dnl.DCS sig H u
      ∧ Dnl.SIAflux gH gb (- H) (- Hup) xdir Dptr qptr u
          = Dnl.SIAflux gH gb H Hup xdir Dptr qptr u := by
  refine ⟨?_, ?_, ?_, ?_⟩
  · have hmem := Dnl.mem_nodePairs hk0 hk1 hj0 hj1
    cases hfind : Dnl.findNegNode mx my aHin with
    | none =>
        exfalso
        unfold Dnl.findNegNode at hfind
        have hnone := List.find?_eq_none.mp hfind (k0, j0) hmem
        simp [hneg] at hnone
    | some p =>
        obtain ⟨k, j⟩ := p
        have hfind2 : (Dnl.nodePairs mx my).find?
            (fun q => decide (aHin q.1 q.2 < 0)) = some (k, j) := by
          rw [Dnl.findNegNode] at hfind
          exact hfind
        have hp := List.find?_some hfind2
        simp only [decide_eq_true_eq] at hp
        exact ⟨j, k, by simp [Dnl.FormFunctionLocal, hfind], hp⟩
  · simp [Dnl.FormFunctionLocal]
  · simp [Dnl.DCS, abs_neg]
  · simp [Dnl.SIAflux, Dnl.DCS, abs_neg]

/-- Witness for the C8 theorem: the iterate aHneg is negative at the interior
node (1,1) of the 3x3 grid. -/
theorem C8_witness :
    (∃ j k : ℤ,
        Dnl.FormFunctionLocal ctxDnlChk 3 3 aHneg
            = Except.error (j, k, aHneg k j)
          ∧ aHneg k j < 0)
      ∧ Dnl.FormFunctionLocal ctxDnl 3 3 aHneg
          = Except.ok (Dnl.FFfun ctxDnl 3 3 aHneg)
      ∧ Dnl.DCS 2 (- 3) ctxDnl = Dnl.DCS 2 3 ctxDnl
      ∧ Dnl.SIAflux ⟨1, 2⟩ ⟨0, 1⟩ (- 3) (- 4) true true true ctxDnl
          = Dnl.SIAflux ⟨1, 2⟩ ⟨0, 1⟩ 3 4 true true true ctxDnl :=
  C8_admissibility_check ctxDnl 3 3 aHneg 1 1 2 3 4 ⟨1, 2⟩ ⟨0, 1⟩ true true true
    (by norm_num) (by norm_num) (by norm_num) (by norm_num)
    (by norm_num [aHneg])

/-- Claim C9 (status: confirmed).  The configuration stage fails (with the
fatal n-rejection error, raised before Gamma or any grid object is computed)
exactly when the Glen exponent satisfies n <= 1, for every combination of the
other options; in particular n = 1 and n = 1/2 are rejected while n = 3 is
accepted. -/
theorem C9_config_rejects_nonadmissible_n :
    (∀ powReal : ℚ → ℚ → ℚ, ∀ A delta initmagic lambda n : ℚ,
        (∃ e, SetFromOptionsAppCtx powReal A delta initmagic lambda n
            = Except.error e)
          ↔ n ≤ 1)
      ∧ (∃ e, SetFromOptionsAppCtx (fun _ _ => 0) 1 1 1 1 1 = Except.error e)
      ∧ (∃ e, SetFromOptionsAppCtx (fun _ _ => 0) 1 1 1 1 (1/2) = Except.error e)
      ∧ (∃ cfg, SetFromOptionsAppCtx (fun _ _ => 0) 1 1 1 1 3 = Except.ok cfg) := by
  refine ⟨?_, ?_, ?_, ?_⟩
  · intro pr A d i l n
    constructor
    · rintro ⟨e, he⟩
      by_contra hn
      simp [SetFromOptionsAppCtx, hn] at he
    · intro hn
      exact ⟨"ERROR: n not allowed ... n > 1 is required",
        by simp [SetFromOptionsAppCtx, hn]⟩
  · exact ⟨"ERROR: n not allowed ... n > 1 is required",
      by norm_num [SetFromOptionsAppCtx]⟩
  · exact ⟨"ERROR: n not allowed ... n > 1 is required",
      by norm_num [SetFromOptionsAppCtx]⟩
  · exact ⟨_, rfl⟩

/-- Claim C10 (status: confirmed).  SIAflux treats only the diffusivity
output D as optional: whenever the flux output pointer q is null the routine
reaches a store through q (the guard xdir && q routes a null q to the
else-branch store for either value of xdir), so the call faults; with q
non-null the call always succeeds, for either value of the D pointer. -/
theorem C10_SIAflux_null_q_faults (gH gb : Dnl.Grad) (H Hup : ℚ)
    (xdir Dptr : Bool) (u : Dnl.AppCtx) :
    Dnl.SIAflux gH gb H Hup xdir Dptr false u = Except.error ()
      ∧ ∃ p, Dnl.SIAflux gH gb H Hup xdir Dptr true u = Except.ok p := by
  constructor
  · cases xdir <;> simp [Dnl.SIAflux]
  · cases xdir <;> exact ⟨_, rfl⟩
